import Mathlib

/-!
Verification of the query-resolution and retrieval pipeline of
`simple_backend.py` (labor-insurance consultation backend).

The Python source is shallowly embedded: pure helpers become Lean
functions; module-level collaborators (the loaded FAQ JSON, the ChromaDB
collection, the sentence-transformer encoder, the Ollama client) become
explicit parameters; Python exceptions become `Except`/`Option` values;
Python floats are modelled as exact rationals (`ℚ`) for the retrieval and
ranking arithmetic and as reals (`ℝ`) for the trigonometric geospatial
code.  Python `dict`s (insertion-ordered) are modelled as association
lists in insertion order.
-/

/-! ### String helpers

Python string primitives used by the source, re-implemented structurally
over `List Char` (Lean core's `String.trim`/`String.replace` are not
kernel-reducible).  `str.strip()`/`str.split()` use whitespace; CJK text
is unaffected by `str.lower()`, modelled charwise. -/

/-- Python `s.strip()`: remove leading and trailing whitespace. -/
def pyStrip (s : String) : String :=
  ⟨((s.data.dropWhile Char.isWhitespace).reverse.dropWhile Char.isWhitespace).reverse⟩

/-- Membership test for a contiguous run of characters (Python's `sub in hay`). -/
def containsChars (hay sub : List Char) : Bool :=
  sub.isPrefixOf hay ||
    (match hay with
     | [] => false
     | _ :: t => containsChars t sub)

/-- Python `sub in hay` substring test. -/
def strContains (hay sub : String) : Bool :=
  containsChars hay.data sub.data

/-- Python `s.lower()`, charwise.  The only lowercased texts the source
matches against are fixed CJK phrases, which case mapping leaves
untouched, so the charwise model is faithful here. -/
def strLower (s : String) : String :=
  ⟨s.data.map Char.toLower⟩

/-- The source's question normalisation:
`question.replace("？", "").replace("?", "").replace("。", "")`.
All three patterns are single characters, so replacing each with the
empty string is exactly filtering those characters out. -/
def cleanQuestion (s : String) : String :=
  ⟨s.data.filter (fun c => !(c == '？' || c == '?' || c == '。'))⟩

/-- Helper for `pySplitWs`: split a character list on whitespace runs. -/
def splitWsAux : List Char → List Char → List String
  | [], acc => if acc.isEmpty then [] else [⟨acc.reverse⟩]
  | c :: cs, acc =>
      if c.isWhitespace then
        if acc.isEmpty then splitWsAux cs [] else ⟨acc.reverse⟩ :: splitWsAux cs []
      else splitWsAux cs (c :: acc)

/-- Python `s.split()` (no argument): split on whitespace runs, dropping
empty tokens. -/
def pySplitWs (s : String) : List String :=
  splitWsAux s.data []

/-! ### Configuration constants (class `Config`) -/

namespace Config

/-- `Config.CACHE_MAX_SIZE` (lru_cache bound). -/
def CACHE_MAX_SIZE : ℕ := 1000

/-- `Config.VECTOR_SEARCH_TOP_K`. -/
def VECTOR_SEARCH_TOP_K : ℕ := 5

/-- `Config.SIMILARITY_THRESHOLD`. -/
def SIMILARITY_THRESHOLD : ℚ := 0.6

/-- `Config.RATE_LIMIT_REQUESTS` (requests per window). -/
def RATE_LIMIT_REQUESTS : ℕ := 20

/-- `Config.RATE_LIMIT_WINDOW` in seconds (timestamps are modelled as `ℚ`). -/
def RATE_LIMIT_WINDOW : ℚ := 60

end Config

/-! ### Rate-limit middleware (`RateLimitMiddleware.dispatch`)

Per client key the middleware keeps a list of admission timestamps.  On a
request at time `now` it first discards entries with
`now - ts >= RATE_LIMIT_WINDOW`, rejects (HTTP 429) if at least
`RATE_LIMIT_REQUESTS` remain, and otherwise appends `now` and admits. -/

/-- The pruning comprehension
`[ts for ts in self.request_counts[ip] if current_time - ts < Config.RATE_LIMIT_WINDOW]`. -/
def pruneTimestamps (now : ℚ) (l : List ℚ) : List ℚ :=
  l.filter (fun ts => decide (now - ts < Config.RATE_LIMIT_WINDOW))

/-- One admission check for a single client key at time `now`:
returns (admitted?, new timestamp list). -/
def rateLimitCheck (now : ℚ) (l : List ℚ) : Bool × List ℚ :=
  let kept := pruneTimestamps now l
  if Config.RATE_LIMIT_REQUESTS ≤ kept.length then (false, kept)
  else (true, kept ++ [now])

/-- Run the middleware for one client over a sequence of request times,
returning the list of admitted request times. -/
def rateLimitRun : List ℚ → List ℚ → List ℚ
  | [], _ => []
  | t :: ts, st =>
      let r := rateLimitCheck t st
      (if r.1 then [t] else []) ++ rateLimitRun ts r.2

/-- Membership of a timestamp in the trailing window `(s - 60, s]`. -/
def inWindow (s ts : ℚ) : Bool :=
  decide (s - Config.RATE_LIMIT_WINDOW < ts) && decide (ts ≤ s)

/-- Helper: timestamps in the trailing window of `s` survive pruning at any
check time `t ≤ s` inside that window. -/
lemma inWindow_implies_kept {s t x : ℚ} (hx : inWindow s x = true)
    (ht : t ≤ s) : decide (t - x < Config.RATE_LIMIT_WINDOW) = true := by
  simp only [inWindow, Bool.and_eq_true, decide_eq_true_eq] at hx ⊢
  linarith [hx.1, hx.2]

/-- Invariant for the rate governor: processing a monotone sequence of
requests never pushes the number of admitted timestamps inside any
trailing window beyond `RATE_LIMIT_REQUESTS`. -/
lemma rateLimitRun_invariant :
    ∀ (reqs acc st : List ℚ) (t0 : ℚ),
      List.Pairwise (· ≤ ·) reqs →
      (∀ r ∈ reqs, t0 ≤ r) →
      st = acc.filter (fun ts => decide (t0 - ts < Config.RATE_LIMIT_WINDOW)) →
      (∀ s : ℚ, (acc.filter (inWindow s)).length ≤ Config.RATE_LIMIT_REQUESTS) →
      ∀ s : ℚ, ((acc ++ rateLimitRun reqs st).filter (inWindow s)).length ≤
        Config.RATE_LIMIT_REQUESTS
  | [], acc, st, t0, _, _, _, hcount, s => by
      simpa [rateLimitRun] using hcount s
  | t :: ts, acc, st, t0, hpair, hlb, hst, hcount, s => by
      have htail : List.Pairwise (· ≤ ·) ts := hpair.of_cons
      have hhead : ∀ r ∈ ts, t ≤ r := by
        intro r hr
        exact (List.pairwise_cons.mp hpair).1 r hr
      have ht0t : t0 ≤ t := hlb t (List.mem_cons_self t ts)
      -- the pruned list at time `t` is the filter of `acc` at time `t`
      have hpruned : pruneTimestamps t st =
          acc.filter (fun ts => decide (t - ts < Config.RATE_LIMIT_WINDOW)) := by
        rw [hst, pruneTimestamps, List.filter_filter]
        apply List.filter_congr
        intro x _
        by_cases hx : t - x < Config.RATE_LIMIT_WINDOW
        · have : t0 - x < Config.RATE_LIMIT_WINDOW := by linarith
          simp [hx, this]
        · simp [hx]
      by_cases hreject : Config.RATE_LIMIT_REQUESTS ≤ (pruneTimestamps t st).length
      · -- rejected: state becomes the pruned list, nothing admitted
        have hrun : rateLimitRun (t :: ts) st = rateLimitRun ts (pruneTimestamps t st) := by
          simp [rateLimitRun, rateLimitCheck, hreject]
        rw [hrun]
        exact rateLimitRun_invariant ts acc (pruneTimestamps t st) t htail hhead hpruned hcount s
      · -- admitted: `t` is appended to both the state and the admission log
        push_neg at hreject
        have hrun : rateLimitRun (t :: ts) st =
            [t] ++ rateLimitRun ts (pruneTimestamps t st ++ [t]) := by
          simp [rateLimitRun, rateLimitCheck, Nat.not_le.mpr hreject]
        have hst' : pruneTimestamps t st ++ [t] =
            (acc ++ [t]).filter (fun ts => decide (t - ts < Config.RATE_LIMIT_WINDOW)) := by
          rw [List.filter_append, hpruned]
          congr 1
          simp [Config.RATE_LIMIT_WINDOW]
        have hcount' : ∀ s' : ℚ,
            ((acc ++ [t]).filter (inWindow s')).length ≤ Config.RATE_LIMIT_REQUESTS := by
          intro s'
          rw [List.filter_append, List.length_append]
          by_cases hts' : inWindow s' t = true
          · have hts2 : t ≤ s' := by
              have h' := hts'
              simp only [inWindow, Bool.and_eq_true, decide_eq_true_eq] at h'
              exact h'.2
            have hmono : (acc.filter (inWindow s')).length ≤
                (acc.filter (fun ts => decide (t - ts < Config.RATE_LIMIT_WINDOW))).length := by
              apply List.Sublist.length_le
              apply List.monotone_filter_right
              intro x hx
              exact inWindow_implies_kept hx hts2
            have : (acc.filter (inWindow s')).length < Config.RATE_LIMIT_REQUESTS := by
              calc (acc.filter (inWindow s')).length
                  ≤ (acc.filter (fun ts => decide (t - ts < Config.RATE_LIMIT_WINDOW))).length :=
                    hmono
                _ = (pruneTimestamps t st).length := by rw [hpruned]
                _ < Config.RATE_LIMIT_REQUESTS := hreject
            simpa [hts'] using this
          · simp only [Bool.not_eq_true] at hts'
            simpa [hts'] using hcount s'
        have hgoal := rateLimitRun_invariant ts (acc ++ [t])
          (pruneTimestamps t st ++ [t]) t htail hhead hst' hcount' s
        rw [hrun]
        simpa [List.append_assoc] using hgoal

/-- C2: for every client key, the rate governor admits at most
`RATE_LIMIT_REQUESTS` (20) requests inside any trailing
`RATE_LIMIT_WINDOW` (60 s) interval, assuming request times are
non-decreasing; moreover each admission check first discards that key's
expired timestamps, rejects exactly when at least 20 remain, and
otherwise appends the current time and admits. -/
theorem rate_governor_sliding_window (reqs : List ℚ)
    (hmono : List.Pairwise (· ≤ ·) reqs) :
    (∀ s : ℚ, ((rateLimitRun reqs []).filter (inWindow s)).length ≤
        Config.RATE_LIMIT_REQUESTS) ∧
    (∀ (now : ℚ) (st : List ℚ),
      ((rateLimitCheck now st).1 = false ↔
        Config.RATE_LIMIT_REQUESTS ≤ (pruneTimestamps now st).length) ∧
      (rateLimitCheck now st).2 =
        (if Config.RATE_LIMIT_REQUESTS ≤ (pruneTimestamps now st).length
         then pruneTimestamps now st
         else pruneTimestamps now st ++ [now])) := by
  constructor
  · intro s
    cases reqs with
    | nil => simp [rateLimitRun]
    | cons t ts =>
        have hlb : ∀ r ∈ t :: ts, t ≤ r := by
          intro r hr
          rcases List.mem_cons.mp hr with h | h
          · exact h ▸ le_refl t
          · exact (List.pairwise_cons.mp hmono).1 r h
        have := rateLimitRun_invariant (t :: ts) [] [] t hmono hlb (by simp)
          (by intro s'; simp) s
        simpa using this
  · intro now st
    constructor
    · by_cases h : Config.RATE_LIMIT_REQUESTS ≤ (pruneTimestamps now st).length
      · simp [rateLimitCheck, h]
      · simp [rateLimitCheck, h]
    · by_cases h : Config.RATE_LIMIT_REQUESTS ≤ (pruneTimestamps now st).length
      · simp [rateLimitCheck, h]
      · simp [rateLimitCheck, h]

/-- Witness for C2 at a concrete monotone request sequence. -/
theorem rate_governor_sliding_window_witness :
    List.Pairwise (· ≤ ·) ([0, 30, 70] : List ℚ) ∧
    (∀ s : ℚ, ((rateLimitRun [0, 30, 70] []).filter (inWindow s)).length ≤
        Config.RATE_LIMIT_REQUESTS) :=
  have h : List.Pairwise (· ≤ ·) ([0, 30, 70] : List ℚ) := by
    norm_num [List.pairwise_cons]
  ⟨h, (rate_governor_sliding_window [0, 30, 70] h).1⟩

/-! ### Embedding cache (`get_cached_embedding`)

The source wraps the whole function — including the `except` handler that
*returns* the empty tuple — in `functools.lru_cache(maxsize=1000)`.  The
decorator is modelled explicitly: the cache is an association list in
most-recently-used-first order; the embedding capability is a parameter
(`none` models an uninitialised `embedding_model`; an encoder returning
`none` models `embedding_model.encode` raising). -/

/-- Result of one call through the lru_cache wrapper. -/
structure EmbedCall where
  result : List ℚ
  cache : List (String × List ℚ)
  invoked : Bool
deriving DecidableEq

/-- The undecorated body of `get_cached_embedding`: return `()` when the
model is missing, `()` when `encode` raises, else the encoded vector. -/
def computeEmbedding (model : Option (String → Option (List ℚ))) (q : String) : List ℚ :=
  match model with
  | none => []
  | some enc =>
      match enc q with
      | some v => v
      | none => []

/-- One call of the lru_cache-decorated `get_cached_embedding`: a hit is
served from the cache (moving the entry to the front) without invoking
the body; a miss invokes the body and caches whatever it returned,
evicting the least-recently-used entry beyond `CACHE_MAX_SIZE`. -/
def get_cached_embedding (cache : List (String × List ℚ))
    (model : Option (String → Option (List ℚ))) (q : String) : EmbedCall :=
  match cache.find? (fun e => e.1 == q) with
  | some e => ⟨e.2, (q, e.2) :: cache.eraseP (fun e => e.1 == q), false⟩
  | none =>
      let v := computeEmbedding model q
      ⟨v, ((q, v) :: cache).take Config.CACHE_MAX_SIZE, true⟩

/-- C4 counterexample: after the embedding capability fails once for
`"q"`, the empty result IS cached; a later call with the same question —
even with a now-working capability — is a cache hit that does not invoke
the capability and still returns the empty vector. -/
theorem embedding_cache_counterexample :
    (get_cached_embedding [] (some (fun _ => none)) "q").result = [] ∧
    (get_cached_embedding
        (get_cached_embedding [] (some (fun _ => none)) "q").cache
        (some (fun _ => some [1])) "q").invoked = false ∧
    (get_cached_embedding
        (get_cached_embedding [] (some (fun _ => none)) "q").cache
        (some (fun _ => some [1])) "q").result = [] := by
  refine ⟨rfl, rfl, rfl⟩

/-- C4 amended: on a cache miss whose underlying embedding fails, the
empty result is returned (not an error) but it is cached as a negative
entry: every later call with the same question is served from the cache
without re-invoking the embedding capability, and still yields the empty
result. -/
theorem embedding_cache_negative_caching
    (cache : List (String × List ℚ)) (model : Option (String → Option (List ℚ)))
    (q : String)
    (hmiss : cache.find? (fun e => e.1 == q) = none)
    (hfail : computeEmbedding model q = []) :
    (get_cached_embedding cache model q).result = [] ∧
    (get_cached_embedding cache model q).invoked = true ∧
    ∀ model', (get_cached_embedding (get_cached_embedding cache model q).cache model' q).invoked
        = false ∧
      (get_cached_embedding (get_cached_embedding cache model q).cache model' q).result = [] := by
  have hcall : get_cached_embedding cache model q =
      ⟨[], ((q, []) :: cache).take Config.CACHE_MAX_SIZE, true⟩ := by
    simp [get_cached_embedding, hmiss, hfail]
  refine ⟨by rw [hcall], by rw [hcall], ?_⟩
  intro model'
  rw [hcall]
  have htake : (((q, ([] : List ℚ)) :: cache).take Config.CACHE_MAX_SIZE).find?
      (fun e => e.1 == q) = some (q, []) := by
    have : Config.CACHE_MAX_SIZE = 999 + 1 := by norm_num [Config.CACHE_MAX_SIZE]
    rw [this, List.take_succ_cons, List.find?_cons_of_pos _ (by simp)]
  constructor
  · simp [get_cached_embedding, htake]
  · simp [get_cached_embedding, htake]

/-- Witness for C4 amended at a concrete failing encoder and empty cache. -/
theorem embedding_cache_negative_caching_witness :
    ([] : List (String × List ℚ)).find? (fun e => e.1 == "q") = none ∧
    computeEmbedding (some (fun _ => none)) "q" = [] ∧
    ((get_cached_embedding [] (some (fun _ => none)) "q").result = [] ∧
     (get_cached_embedding [] (some (fun _ => none)) "q").invoked = true ∧
     ∀ model', (get_cached_embedding
          (get_cached_embedding [] (some (fun _ => none)) "q").cache model' "q").invoked = false ∧
        (get_cached_embedding
          (get_cached_embedding [] (some (fun _ => none)) "q").cache model' "q").result = []) :=
  ⟨rfl, rfl, embedding_cache_negative_caching [] (some (fun _ => none)) "q" rfl rfl⟩

/-! ### Knowledge retriever (`search_vector_database`)

`collection.query` is an opaque nearest-neighbour capability passed as a
parameter: `Except.error` models `chromadb.errors.ChromaError` (re-raised
as `VectorDatabaseError`); candidate records carry the returned document,
its metadata `source` field and the reported cosine distance. -/

/-- One candidate row of a `collection.query` result. -/
structure QueryCandidate where
  document : String
  source : Option String
  distance : ℚ
deriving DecidableEq

/-- One formatted retrieval result (the dict built by
`search_vector_database`). -/
structure RDoc where
  document : String
  source : Option String
  distance : ℚ
  similarity : ℚ
deriving DecidableEq

/-- Python 3 `round` to integer: banker's rounding (round half to even). -/
def roundHalfEven {α : Type*} [LinearOrderedField α] [FloorRing α]
    [DecidableEq α] (x : α) : ℤ :=
  if Int.fract x = 1/2 then 2 * round (x / 2) else round x

/-- Python `round(x, 3)` on rationals. -/
def pyRound3 (x : ℚ) : ℚ :=
  (roundHalfEven (x * 1000) : ℚ) / 1000

/-- `search_vector_database(question, top_k)`.  `initialized` models
"`collection` and `embedding_model` are non-None"; `cachedEmbedding`
models `get_cached_embedding` (empty list = failure); `collectionQuery`
models `collection.query`, which is asked for `2 * top_k` candidates. -/
def search_vector_database (initialized : Bool)
    (cachedEmbedding : String → List ℚ)
    (collectionQuery : List ℚ → ℕ → Except Unit (List QueryCandidate))
    (question : String) (topK : Option ℕ) : Except Unit (List RDoc) :=
  -- `top_k = None` defaults to `Config.VECTOR_SEARCH_TOP_K`; the index is
  -- asked for `top_k * 2` candidates, each kept result stores the raw
  -- distance and `round(similarity, 3)`.
  if initialized then
    if (cachedEmbedding question).isEmpty then .ok []
    else
      match collectionQuery (cachedEmbedding question)
          (topK.getD Config.VECTOR_SEARCH_TOP_K * 2) with
      | .error e => .error e
      | .ok cands =>
          .ok ((cands.filterMap (fun c =>
            if Config.SIMILARITY_THRESHOLD ≤ 1 - c.distance then
              some ⟨c.document, c.source, c.distance, pyRound3 (1 - c.distance)⟩
            else none)).take (topK.getD Config.VECTOR_SEARCH_TOP_K))
  else .ok []

/-- C3: `search_vector_database` never returns more than `top_k`
documents (default 5) and never returns a document whose similarity
(1 − reported distance) is below `SIMILARITY_THRESHOLD` (0.6), although
it requests `2 * top_k` candidates from the vector index. -/
theorem retrieve_threshold_and_topk (initialized : Bool)
    (cachedEmbedding : String → List ℚ)
    (collectionQuery : List ℚ → ℕ → Except Unit (List QueryCandidate))
    (question : String) (topK : Option ℕ) (result : List RDoc)
    (h : search_vector_database initialized cachedEmbedding collectionQuery question topK
        = .ok result) :
    result.length ≤ topK.getD Config.VECTOR_SEARCH_TOP_K ∧
    ∀ d ∈ result, Config.SIMILARITY_THRESHOLD ≤ 1 - d.distance := by
  unfold search_vector_database at h
  split at h
  · split at h
    · cases h
      exact ⟨by simp, by simp⟩
    · split at h
      · exact Except.noConfusion h
      · cases h
        constructor
        · exact List.length_take_le _ _
        · intro d hd
          have hd' := List.mem_of_mem_take hd
          rcases List.mem_filterMap.mp hd' with ⟨c, _, hc⟩
          by_cases hsim : Config.SIMILARITY_THRESHOLD ≤ 1 - c.distance
          · simp only [hsim, if_pos] at hc
            cases hc
            simpa using hsim
          · simp only [hsim, if_neg, reduceIte] at hc
            exact Option.noConfusion hc
  · cases h
    exact ⟨by simp, by simp⟩

/-- Witness for C3 on a concrete one-candidate index response. -/
theorem retrieve_threshold_and_topk_witness :
    search_vector_database true (fun _ => [1])
        (fun _ _ => .ok [⟨"文件", some "來源", 0⟩]) "問" none
      = .ok [⟨"文件", some "來源", 0, 1⟩] ∧
    ([(⟨"文件", some "來源", 0, 1⟩ : RDoc)]).length ≤
        (none : Option ℕ).getD Config.VECTOR_SEARCH_TOP_K ∧
    ∀ d ∈ [(⟨"文件", some "來源", 0, 1⟩ : RDoc)],
      Config.SIMILARITY_THRESHOLD ≤ 1 - d.distance := by
  have hfr : Int.fract ((1000 : ℚ)) = 0 := by norm_num [Int.fract]
  have hr : pyRound3 (1 : ℚ) = 1 := by
    have h1 : ((1 : ℚ)) * 1000 = 1000 := by norm_num
    rw [pyRound3, h1, roundHalfEven, if_neg (by rw [hfr]; norm_num)]
    norm_num [round_eq]
  have h : search_vector_database true (fun _ => [1])
      (fun _ _ => .ok [⟨"文件", some "來源", 0⟩]) "問" none
      = .ok [⟨"文件", some "來源", 0, 1⟩] := by
    rw [search_vector_database]
    norm_num [Config.VECTOR_SEARCH_TOP_K, Config.SIMILARITY_THRESHOLD, hr,
      List.filterMap]
  exact ⟨h, (retrieve_threshold_and_topk true _ _ "問" none _ h).1,
    (retrieve_threshold_and_topk true _ _ "問" none _ h).2⟩

/-! ### FAQ database (`search_qa_database`) and presets (`find_preset_answer`)

`qa_database` is the JSON loaded at startup
(`{"常見問題": {category: {question: answer}}, "快速查詢關鍵詞": {kw: [syn]}}`);
it is modelled as insertion-ordered association lists, wrapped in
`Option` because loading may fail.  `PRESET_QA` is the hard-coded
module-level dict, transcribed verbatim. -/

/-- The loaded `常見問題資料庫.json`. -/
structure QaDatabase where
  faq : List (String × List (String × String))
  keywords : Option (List (String × List String))
deriving DecidableEq

/-- Flattened iteration over `qa_database["常見問題"]`:
`for category, questions in ...: for q, answer in questions.items()`. -/
def qaPairs (db : QaDatabase) : List (String × String) :=
  db.faq.flatMap Prod.snd

/-- The direct-match test of `search_qa_database` phase 1:
`q == question or q == clean_question`. -/
def qaDirectPred (question cq : String) (p : String × String) : Bool :=
  p.1 == question || p.1 == cq

/-- The keyword-overlap test of `search_qa_database` phase 2:
`any(keyword in clean_question for keyword in clean_q.split())`. -/
def qaKeywordPred (cq : String) (p : String × String) : Bool :=
  (pySplitWs (cleanQuestion p.1)).any (fun kw => strContains cq kw)

/-- `search_qa_database(question)`: direct match, then keyword overlap,
then the synonym table `快速查詢關鍵詞`; returns `""` when nothing
matches or the database is not loaded. -/
def search_qa_database (db? : Option QaDatabase) (question : String) : String :=
  match db? with
  | none => ""
  | some db =>
      match (qaPairs db).find? (qaDirectPred question (cleanQuestion question)) with
      | some p => p.2
      | none =>
          match (qaPairs db).find? (qaKeywordPred (cleanQuestion question)) with
          | some p => p.2
          | none =>
              match db.keywords with
              | none => ""
              | some kws =>
                  match kws.findSome? (fun e =>
                    if e.2.any (fun syn => strContains (cleanQuestion question) syn) then
                      (qaPairs db).findSome? (fun p =>
                        if strContains p.1 e.1 || e.2.any (fun syn => strContains p.1 syn)
                        then some p.2 else none)
                    else none) with
                  | some a => a
                  | none => ""

/-- The module-level `PRESET_QA` dict, in source order. -/
def PRESET_QA : List (String × String) :=
  [("什麼是勞工保險", "勞工保險是政府設立的社會保險制度，保障勞工在生病、傷病、生育、職災等情況下的醫療、撫卹等保障。"),
   ("勞工保險失能給付", "失能給付分15級，按平均日投保薪資×日數計算。第1級1200日，第15級30日。"),
   ("如何申請失能給付", "1.準備失能診斷書 2.填寫申請書 3.向勞保局申請 4.等待審核結果。"),
   ("失能等級如何判定", "由健保特約醫院或診所出具失能診斷書，依勞工保險失能給付標準判定等級。"),
   ("失能給付金額", "普通傷病：第1級1200日，第15級30日。職業傷病：第1級1800日，第15級45日。"),
   ("申請失能給付需要什麼文件", "失能診斷書、申請書、身分證明、投保資料等相關文件。"),
   ("失能給付多久可以領到", "申請後約1-2個月內審核完成，通過後即可領取給付。"),
   ("失能給付可以領幾次", "失能給付為一次給付，領取後即結案。"),
   ("什麼是職業傷病", "因執行職務而致傷害或疾病，包括職業災害和職業病。"),
   ("職業傷病給付標準", "職業傷病失能給付比普通傷病高1.5倍，如第1級1800日。"),
   ("失能診斷書哪裡開", "健保特約醫院或診所，部分項目需醫學中心或區域醫院以上。"),
   ("失能給付申請資格", "勞保被保險人，經治療後症狀固定，再行治療仍不能期待其治療效果者。"),
   ("失能給付計算方式", "平均日投保薪資 × 失能等級對應日數 = 給付金額。"),
   ("失能給付免稅嗎", "失能給付免納所得稅，但需依規定申報。"),
   ("失能給付可以分期領取嗎", "失能給付為一次給付，無法分期領取。"),
   ("失能等級如何評估", "失能等級評估依據失能程度、康復可能性、以及對生活功能造成的影響。由健保特約醫院出具失能診斷書，依勞工保險失能給付標準判定等級，分為15級，第1級最嚴重（1200日），第15級最輕微（30日）。評估時會考慮身體機能、工作能力、日常生活自理能力等因素。")]

/-- `find_preset_answer(question)`: first the JSON database, then the
key lookup `question in PRESET_QA`, then keyword overlap against each
preset question.  (The source only calls `search_qa_database` when the
database is loaded; with `db? = none` that call returns `""`, so the
guard is absorbed.) -/
def find_preset_answer (db? : Option QaDatabase) (question : String) : String :=
  match search_qa_database db? (pyStrip question) with
  | "" =>
      (match PRESET_QA.find? (fun p => p.1 == pyStrip question) with
       | some p => p.2
       | none =>
           match PRESET_QA.find? (qaKeywordPred (cleanQuestion (pyStrip question))) with
           | some p => p.2
           | none => "")
  | answer => answer

/-! ### Hybrid ranker and the `/api/chat` pipeline

`calc_keyword_match_score` and the scoring/sorting block are local to
`chat`; the generative capability (`ollama_client` plus
`client.generate`) is a parameter (`none` client = uninitialised;
`none` reply = the call raised).  `retrieval` is the outcome of
`async_vector_search` (`Except.error` = `VectorDatabaseError`). -/

/-- The three hard-coded key phrases, in the order the source tests them. -/
def KEY_PHRASES : List String :=
  ["僅能從事輕便工作", "終身無工作能力", "終身僅能從事輕便工作"]

/-- `calc_keyword_match_score(doc, question)`: each key phrase that occurs
in the question and (lowercased) in the document text adds 10 points. -/
def calc_keyword_match_score (docText question : String) : ℕ :=
  (KEY_PHRASES.filter (fun p => strContains question p)).foldl
    (fun score p => if strContains (strLower docText) (strLower p) then score + 10 else score) 0

/-- The per-document total used for ranking:
`similarity + keyword_score * 0.05`. -/
def totalScore (question : String) (d : RDoc) : ℚ :=
  d.similarity + (calc_keyword_match_score d.document question : ℚ) * 0.05

/-- The list `scored_docs = [(total_score, doc) for doc in relevant_docs]`
in retrieval order. -/
def scoreDocs (question : String) (docs : List RDoc) : List (ℚ × RDoc) :=
  docs.map (fun d => (totalScore question d, d))

/-- `scored_docs.sort(key=lambda x: x[0], reverse=True)`: Python's sort is
stable, and `reverse=True` flips comparisons while keeping ties in input
order; this is exactly a stable merge sort with "total score of the left
element is at least that of the right". -/
def rankDocs (question : String) (docs : List RDoc) : List (ℚ × RDoc) :=
  (scoreDocs question docs).mergeSort (fun a b => decide (b.1 ≤ a.1))

/-- The context block concatenated from the ranked documents.  (The
`:.3f` float formatting of the similarity is abstracted by `toString`;
no claim depends on the numeric rendering.) -/
def buildContext (ranked : List (ℚ × RDoc)) : String :=
  ranked.foldl
    (fun acc p =>
      acc ++ "\n相關資訊（相似度: " ++ toString p.2.similarity ++ "）：\n" ++ p.2.document ++ "\n")
    ""

/-- The source-attribution list: first-use order, duplicates suppressed,
with the metadata default `未知來源`. -/
def buildSources (ranked : List (ℚ × RDoc)) : List String :=
  ranked.foldl
    (fun acc p =>
      if p.2.source.getD "未知來源" ∈ acc then acc else acc ++ [p.2.source.getD "未知來源"])
    []

/-- The RAG prompt template (static text around the question and context). -/
def buildPrompt (message contextText : String) : String :=
  "你是勞資屬道山諮詢助手，專門回答勞工保險相關問題。請根據以下相關資料回答問題。\n\n問題：" ++
    message ++ "\n\n相關資料：\n" ++ contextText ++
    "\n\n重要提示：\n1. 請**仔細閱讀**用戶問題中的每一個關鍵詞，特別注意「終身無工作能力」vs「終身僅能從事輕便工作」等細微差別\n2. 請從相關資料中找出**完全匹配**用戶描述狀況的條目\n3. 不同的失能狀態對應不同的失能等級，請確保選擇正確的等級\n4. 如果資料中有失能等級資訊，請明確指出等級數字\n\n請根據以上資料用繁體中文回答，提供準確、專業的資訊。回答請控制在200字以內："

/-- The exception classes caught by `chat`'s handlers. -/
inductive ChatError where
  | ollamaConn
  | vectorDb
  | generic
deriving DecidableEq

/-- The final `ChatResponse` pydantic model. -/
structure ChatResponse where
  response : String
  sources : List String
  success : Bool
deriving DecidableEq

/-- Stage 1 of `chat`: the result of `await async_vector_search(...)`
with the `except VectorDatabaseError` clause that degrades a failed
search to an empty document list. -/
def relevantDocsOf (retrieval : Except Unit (List RDoc)) : List RDoc :=
  match retrieval with
  | .ok ds => ds
  | .error _ => []

/-- The `try:` body of the `/api/chat` handler.  Stage 0: FAQ fast path;
stage 1/2: vector retrieval with preset fallback when it came back
empty; stage 3: ranking and context building; stage 4: Ollama generation
(missing client or a raising `generate` call becomes
`OllamaConnectionError`); stage 5: source attribution and the
no-evidence disclaimer.  (`find_preset_answer` is referentially
transparent, so hoisting it out of the `if not relevant_docs` guard is
sound.) -/
def chatCore (db? : Option QaDatabase) (retrieval : Except Unit (List RDoc))
    (ollamaClient : Option (String → Option String)) (message : String) :
    Except ChatError ChatResponse :=
  if pyStrip (search_qa_database db? message) ≠ "" then
    .ok ⟨search_qa_database db? message, ["常見問題資料庫"], true⟩
  else if (relevantDocsOf retrieval).isEmpty ∧ pyStrip (find_preset_answer db? message) ≠ "" then
    .ok ⟨find_preset_answer db? message, ["預設知識庫"], true⟩
  else
    match ollamaClient with
    | none => .error .ollamaConn
    | some client =>
        match client (buildPrompt message
            (buildContext (rankDocs message (relevantDocsOf retrieval)))) with
        | none => .error .ollamaConn
        | some reply =>
            if (relevantDocsOf retrieval).isEmpty then
              .ok ⟨pyStrip reply ++
                "\n\n注意：此問題的相關資料可能不在我們的知識庫中，建議您直接聯繫勞保局或相關機構獲得更準確的資訊。",
                ["AI 語言模型"], true⟩
            else
              .ok ⟨pyStrip reply,
                buildSources (rankDocs message (relevantDocsOf retrieval)) ++ ["AI 語言模型"], true⟩

/-- The `/api/chat` handler with its `except` clauses: every classified
failure is converted into a degraded `ChatResponse`; nothing escapes. -/
def chat (db? : Option QaDatabase) (retrieval : Except Unit (List RDoc))
    (ollamaClient : Option (String → Option String)) (message : String) : ChatResponse :=
  match chatCore db? retrieval ollamaClient message with
  | .ok r => r
  | .error .ollamaConn =>
      ⟨"AI 服務暫時無法使用，請稍後再試或直接聯繫勞保局：0800-078-777", ["系統訊息"], false⟩
  | .error .vectorDb =>
      ⟨"知識庫查詢暫時無法使用，請稍後再試。您也可以直接撥打勞保局專線：0800-078-777",
        ["系統訊息"], false⟩
  | .error .generic => ⟨"抱歉，處理您的問題時發生錯誤，請稍後再試。", [], false⟩

/-- C1 amended: when the query text exactly equals some stored FAQ
question, phase 1 of `search_qa_database` returns the answer of the
*first* entry whose stored question equals the query or its
punctuation-cleaned form, and — provided that answer is non-blank — the
pipeline returns exactly it with the single source `常見問題資料庫` and
`success = true`, for every retrieval outcome and every generative
client. -/
theorem chat_faq_first_direct_match (db : QaDatabase) (question : String)
    (hstored : ∃ p ∈ qaPairs db, p.1 = question) :
    ∃ p, (qaPairs db).find? (qaDirectPred question (cleanQuestion question)) = some p ∧
      search_qa_database (some db) question = p.2 ∧
      (pyStrip p.2 ≠ "" → ∀ retrieval ollamaClient,
        chat (some db) retrieval ollamaClient question =
          ⟨p.2, ["常見問題資料庫"], true⟩) := by
  obtain ⟨q0, hq0, hq0eq⟩ := hstored
  have hsome : ((qaPairs db).find? (qaDirectPred question (cleanQuestion question))).isSome := by
    rw [List.find?_isSome]
    exact ⟨q0, hq0, by simp [qaDirectPred, hq0eq]⟩
  obtain ⟨p, hp⟩ := Option.isSome_iff_exists.mp hsome
  have hsearch : search_qa_database (some db) question = p.2 := by
    simp [search_qa_database, hp]
  refine ⟨p, hp, hsearch, ?_⟩
  intro hne retrieval ollamaClient
  simp [chat, chatCore, hsearch, hne]

/-- Concrete FAQ table where a cleaned-question collision hides an exact
match: the query `問？` exactly equals the second stored question, but an
earlier entry matches via the punctuation-stripped form first. -/
def faqCollisionDb : QaDatabase := ⟨[("分類", [("問", "答一"), ("問？", "答二")])], none⟩

/-- Concrete FAQ table whose stored answer is blank. -/
def faqBlankDb : QaDatabase := ⟨[("分類", [("空白", "")])], none⟩

/-- C1 counterexample: (a) for the query `問？`, exactly equal to the
stored question `問？` with answer `答二`, the pipeline returns the
*other* entry's answer `答一`; (b) for a query exactly equal to a stored
question whose answer is blank, the pipeline does not answer from the
FAQ at all and, with retrieval empty and generation down, degrades to a
`success = false` response. -/
theorem chat_faq_exact_counterexample :
    (("問？", "答二") ∈ qaPairs faqCollisionDb ∧
      chat (some faqCollisionDb) (.ok []) none "問？" = ⟨"答一", ["常見問題資料庫"], true⟩ ∧
      chat (some faqCollisionDb) (.ok []) none "問？" ≠ ⟨"答二", ["常見問題資料庫"], true⟩) ∧
    (("空白", "") ∈ qaPairs faqBlankDb ∧
      chat (some faqBlankDb) (.ok []) none "空白" =
        ⟨"AI 服務暫時無法使用，請稍後再試或直接聯繫勞保局：0800-078-777", ["系統訊息"], false⟩) := by
  refine ⟨⟨by decide, by decide, by decide⟩, by decide, by decide⟩

/-- Witness for C1 amended on a one-entry FAQ table. -/
theorem chat_faq_first_direct_match_witness :
    (∃ p ∈ qaPairs (⟨[("類", [("什麼是勞保", "答案A")])], none⟩ : QaDatabase),
      p.1 = "什麼是勞保") ∧
    ∃ p, (qaPairs (⟨[("類", [("什麼是勞保", "答案A")])], none⟩ : QaDatabase)).find?
          (qaDirectPred "什麼是勞保" (cleanQuestion "什麼是勞保")) = some p ∧
      search_qa_database (some ⟨[("類", [("什麼是勞保", "答案A")])], none⟩) "什麼是勞保" = p.2 ∧
      (pyStrip p.2 ≠ "" → ∀ retrieval ollamaClient,
        chat (some ⟨[("類", [("什麼是勞保", "答案A")])], none⟩) retrieval ollamaClient "什麼是勞保"
          = ⟨p.2, ["常見問題資料庫"], true⟩) :=
  ⟨⟨("什麼是勞保", "答案A"), by decide, rfl⟩,
    chat_faq_first_direct_match _ _ ⟨("什麼是勞保", "答案A"), by decide, rfl⟩⟩

/-- C5: when no FAQ answer and no preset answer is available and the
generative capability fails (uninitialised client, or every `generate`
call raising), the pipeline returns — it does not raise — the static
contact-referral `ChatResponse` with `success = false`. -/
theorem chat_generation_failure_degrades (db? : Option QaDatabase)
    (retrieval : Except Unit (List RDoc))
    (ollamaClient : Option (String → Option String)) (message : String)
    (hfaq : pyStrip (search_qa_database db? message) = "")
    (hpreset : pyStrip (find_preset_answer db? message) = "")
    (hgen : ∀ client, ollamaClient = some client → ∀ prompt, client prompt = none) :
    chat db? retrieval ollamaClient message =
      ⟨"AI 服務暫時無法使用，請稍後再試或直接聯繫勞保局：0800-078-777", ["系統訊息"], false⟩ := by
  cases ollamaClient with
  | none => simp [chat, chatCore, hfaq, hpreset]
  | some client =>
      have h := hgen client rfl
      simp [chat, chatCore, hfaq, hpreset, h]

/-- Witness for C5 at an unmatched query with empty retrieval and a
missing Ollama client. -/
theorem chat_generation_failure_degrades_witness :
    pyStrip (search_qa_database none "這個問題沒有任何匹配") = "" ∧
    pyStrip (find_preset_answer none "這個問題沒有任何匹配") = "" ∧
    chat none (.ok []) none "這個問題沒有任何匹配" =
      ⟨"AI 服務暫時無法使用，請稍後再試或直接聯繫勞保局：0800-078-777", ["系統訊息"], false⟩ :=
  ⟨rfl, by decide,
    chat_generation_failure_degrades none (.ok []) none "這個問題沒有任何匹配" rfl (by decide)
      (fun client h => Option.noConfusion h)⟩

/-- Transitivity of the ranking comparator. -/
lemma rankLe_trans : ∀ (a b c : ℚ × RDoc),
    (fun a b : ℚ × RDoc => decide (b.1 ≤ a.1)) a b = true →
    (fun a b : ℚ × RDoc => decide (b.1 ≤ a.1)) b c = true →
    (fun a b : ℚ × RDoc => decide (b.1 ≤ a.1)) a c = true := by
  intro a b c hab hbc
  simp only [decide_eq_true_eq] at *
  exact le_trans hbc hab

/-- Totality of the ranking comparator. -/
lemma rankLe_total : ∀ (a b : ℚ × RDoc),
    ((fun a b : ℚ × RDoc => decide (b.1 ≤ a.1)) a b ||
     (fun a b : ℚ × RDoc => decide (b.1 ≤ a.1)) b a) = true := by
  intro a b
  simp only [Bool.or_eq_true, decide_eq_true_eq]
  exact le_total b.1 a.1

/-- C6: the hybrid ranker's output is sorted by descending total score,
and the sort is stable: restricting both the output and the
retrieval-ordered scored input to any fixed total score gives the same
list, so equal-score documents keep their input order. -/
theorem rank_sorted_descending_stable (question : String) (docs : List RDoc) :
    List.Pairwise (fun a b : ℚ × RDoc => b.1 ≤ a.1) (rankDocs question docs) ∧
    ∀ s : ℚ, (rankDocs question docs).filter (fun p => decide (p.1 = s)) =
      (scoreDocs question docs).filter (fun p => decide (p.1 = s)) := by
  constructor
  · have h := List.sorted_mergeSort rankLe_trans rankLe_total (scoreDocs question docs)
    exact h.imp (fun hab => by simpa using hab)
  · intro s
    have hmemeq : ∀ a ∈ (scoreDocs question docs).filter (fun p => decide (p.1 = s)),
        (a : ℚ × RDoc).1 = s := by
      intro a ha
      simpa using (List.mem_filter.mp ha).2
    have hpair : ((scoreDocs question docs).filter (fun p => decide (p.1 = s))).Pairwise
        (fun a b : ℚ × RDoc => (fun a b : ℚ × RDoc => decide (b.1 ≤ a.1)) a b = true) := by
      apply List.pairwise_of_forall_mem_list
      intro a ha b hb
      simp only [decide_eq_true_eq]
      rw [hmemeq a ha, hmemeq b hb]
    have hsub : ((scoreDocs question docs).filter (fun p => decide (p.1 = s))).Sublist
        (rankDocs question docs) :=
      List.sublist_mergeSort rankLe_trans rankLe_total hpair (List.filter_sublist _)
    have hself : ((scoreDocs question docs).filter (fun p => decide (p.1 = s))).filter
        (fun p => decide (p.1 = s)) =
        (scoreDocs question docs).filter (fun p => decide (p.1 = s)) := by
      apply List.filter_eq_self.mpr
      intro a ha
      exact (List.mem_filter.mp ha).2
    have hsub' : ((scoreDocs question docs).filter (fun p => decide (p.1 = s))).Sublist
        ((rankDocs question docs).filter (fun p => decide (p.1 = s))) := by
      have := hsub.filter (fun p => decide (p.1 = s))
      rwa [hself] at this
    have hlen : ((scoreDocs question docs).filter (fun p => decide (p.1 = s))).length =
        ((rankDocs question docs).filter (fun p => decide (p.1 = s))).length :=
      (((List.mergeSort_perm (scoreDocs question docs) _).filter _).length_eq).symm
    exact (hsub'.eq_of_length hlen).symm

/-- Counting form of the keyword-bonus fold: starting from `n`, the fold
adds exactly 10 per phrase contained in the lowered document text. -/
lemma keyword_foldl_count (dt : String) : ∀ (phrases : List String) (n : ℕ),
    phrases.foldl
        (fun score p => if strContains (strLower dt) (strLower p) then score + 10 else score) n
      = n + 10 * (phrases.filter (fun p => strContains (strLower dt) (strLower p))).length
  | [], n => by simp
  | p :: ps, n => by
      by_cases hp : strContains (strLower dt) (strLower p) = true
      · rw [List.foldl_cons, if_pos hp, keyword_foldl_count dt ps (n + 10)]
        simp [List.filter_cons, hp]
        ring
      · rw [List.foldl_cons, if_neg hp, keyword_foldl_count dt ps n]
        simp [List.filter_cons, hp]

/-- Keyword bonus as claim C7 words it (modelled from the spec for
comparison): scan the fixed phrase set for verbatim containment in the
document text alone, 10 points per hit — with no dependence on the
question. -/
def claimedKeywordScore (docText : String) : ℕ :=
  KEY_PHRASES.foldl
    (fun score p => if strContains (strLower docText) (strLower p) then score + 10 else score) 0

/-- C7 counterexample: a document containing the key phrase
`終身無工作能力` scores 10 under the claim's question-independent rule,
but the code's `calc_keyword_match_score` only scans phrases present in
the *question*, so for the question `失能等級` it scores 0 and the final
score is the bare similarity. -/
theorem keyword_bonus_counterexample :
    claimedKeywordScore "終身無工作能力" = 10 ∧
    calc_keyword_match_score "終身無工作能力" "失能等級" = 0 ∧
    totalScore "失能等級" ⟨"終身無工作能力", none, 0.3, 0.7⟩ = 0.7 := by
  have hc : calc_keyword_match_score "終身無工作能力" "失能等級" = 0 := by decide
  refine ⟨by decide, hc, ?_⟩
  show (0.7 : ℚ) + (calc_keyword_match_score "終身無工作能力" "失能等級" : ℚ) * 0.05 = 0.7
  rw [hc]
  norm_num

/-- C7 amended: every ranked pair's score is
`similarity + keyword_score * 0.05`, where the keyword score is 10 per
key phrase that occurs verbatim in the *question* and (lowercased) in
the document text. -/
theorem ranker_keyword_bonus (question : String) (docs : List RDoc) (p : ℚ × RDoc)
    (hmem : p ∈ rankDocs question docs) :
    p.1 = p.2.similarity + (calc_keyword_match_score p.2.document question : ℚ) * 0.05 ∧
    calc_keyword_match_score p.2.document question =
      10 * (((KEY_PHRASES.filter (fun ph => strContains question ph)).filter
        (fun ph => strContains (strLower p.2.document) (strLower ph))).length) := by
  have hp : p ∈ scoreDocs question docs :=
    ((List.mergeSort_perm (scoreDocs question docs) _).mem_iff).mp hmem
  rcases List.mem_map.mp hp with ⟨d, _, hd⟩
  cases hd
  constructor
  · rfl
  · show calc_keyword_match_score d.document question = _
    rw [calc_keyword_match_score]
    simpa using
      keyword_foldl_count d.document (KEY_PHRASES.filter (fun ph => strContains question ph)) 0

/-- Witness for C7 amended on a single self-matching document. -/
theorem ranker_keyword_bonus_witness :
    ((totalScore "終身無工作能力" ⟨"終身無工作能力", none, 0.3, 0.7⟩,
        (⟨"終身無工作能力", none, 0.3, 0.7⟩ : RDoc)) ∈
      rankDocs "終身無工作能力" [⟨"終身無工作能力", none, 0.3, 0.7⟩]) ∧
    (totalScore "終身無工作能力" ⟨"終身無工作能力", none, 0.3, 0.7⟩,
        (⟨"終身無工作能力", none, 0.3, 0.7⟩ : RDoc)).1 =
      (⟨"終身無工作能力", none, 0.3, 0.7⟩ : RDoc).similarity +
        (calc_keyword_match_score "終身無工作能力" "終身無工作能力" : ℚ) * 0.05 := by
  have hmem : (totalScore "終身無工作能力" ⟨"終身無工作能力", none, 0.3, 0.7⟩,
      (⟨"終身無工作能力", none, 0.3, 0.7⟩ : RDoc)) ∈
        rankDocs "終身無工作能力" [⟨"終身無工作能力", none, 0.3, 0.7⟩] := by
    simp [rankDocs, scoreDocs, List.mergeSort_singleton]
  exact ⟨hmem, (ranker_keyword_bonus "終身無工作能力" _ _ hmem).1⟩

/-! ### Geospatial nearest-facility search (`/api/maps/nearby`)

Hospital records come from the JSON with explicit nullable coordinate
fields read via `.get` (`None` → skipped); labor-office records are
accessed with `float(office["緯度"])`, so a missing/non-numeric
coordinate raises and is modelled as `Option` whose `none` throws.
Distances use real arithmetic: `calculate_distance` is the source's
haversine, the office branch its flat approximation. -/

/-- `math.radians`. -/
noncomputable def radians (x : ℝ) : ℝ := x * Real.pi / 180

/-- `math.atan2(y, x)`, defined piecewise as in the C library. -/
noncomputable def atan2 (y x : ℝ) : ℝ :=
  if 0 < x then Real.arctan (y / x)
  else if x < 0 ∧ 0 ≤ y then Real.arctan (y / x) + Real.pi
  else if x < 0 ∧ y < 0 then Real.arctan (y / x) - Real.pi
  else if x = 0 ∧ 0 < y then Real.pi / 2
  else if x = 0 ∧ y < 0 then -(Real.pi / 2)
  else 0

/-- The nested `calculate_distance` helper: haversine great-circle
distance with Earth radius `R = 6371` km. -/
noncomputable def calculate_distance (lat1 lon1 lat2 lon2 : ℝ) : ℝ :=
  let dlat := radians (lat2 - lat1)
  let dlon := radians (lon2 - lon1)
  let a := Real.sin (dlat / 2) * Real.sin (dlat / 2) +
    Real.cos (radians lat1) * Real.cos (radians lat2) *
      Real.sin (dlon / 2) * Real.sin (dlon / 2)
  6371 * (2 * atan2 (Real.sqrt a) (Real.sqrt (1 - a)))

/-- Python `round(x, 2)` over the reals (banker's rounding). -/
noncomputable def pyRound2 (x : ℝ) : ℝ :=
  (roundHalfEven (x * 100) : ℝ) / 100

/-- The labor-office branch's flat distance:
`((lat_diff ** 2 + lng_diff ** 2) ** 0.5) * 111`. -/
noncomputable def officeDistance (lat1 lon1 lat2 lon2 : ℝ) : ℝ :=
  Real.sqrt ((lat1 - lat2) ^ 2 + (lon1 - lon2) ^ 2) * 111

/-- One row of the hospital JSON (with coordinates). -/
structure Hospital where
  name : String
  city : String
  level : String
  phone : Option String
  address : Option String
  lat : Option ℝ
  lng : Option ℝ

/-- One row of the labor-office JSON. -/
structure LaborOffice where
  city : String
  address : String
  phone : String
  serviceHours : String
  phoneHours : String
  lat : Option ℝ
  lng : Option ℝ

/-- The `map_data` dict loaded at startup. -/
structure MapData where
  labor_offices : List LaborOffice
  hospitals : List Hospital

/-- A validated `NearbyLocationRequest` (`radius` is constrained to
`1..200` by the pydantic model). -/
structure NearbyLocationRequest where
  latitude : ℝ
  longitude : ℝ
  type : String
  radius : ℝ

/-- One entry of the response's `locations` list (hospital entries and
office entries populate different optional fields, like the two dict
shapes in the source). -/
structure LocationInfo where
  name : String
  original_name : Option String
  address : String
  city : String
  type : String
  phone : String
  service_hours : Option String
  phone_hours : Option String
  level : Option String
  category : Option String
  latitude : ℝ
  longitude : ℝ
  distance : ℝ

/-- The `/api/maps/nearby` response: the success dict or an error dict. -/
inductive NearbyResult where
  | ok (locations : List LocationInfo) (total : ℕ) (message : String)
  | err (error : String)

/-- The four tier buckets, in insertion order of `hospital_categories`. -/
def hospitalCategoryNames : List String := ["醫學中心", "區域醫院", "地區醫院", "診所"]

/-- Tier classification of `hospital["醫院評鑑評鑑結果"]`: first matching
substring wins, default `診所`. -/
def categorizeHospital (levelText : String) : String :=
  if strContains levelText "醫學中心" then "醫學中心"
  else if strContains levelText "區域醫院" then "區域醫院"
  else if strContains levelText "地區醫院" then "地區醫院"
  else "診所"

/-- The `hospital_info` dict built for one hospital with coordinates. -/
noncomputable def hospitalInfo (req : NearbyLocationRequest) (h : Hospital)
    (la lo : ℝ) : LocationInfo :=
  { name := h.name ++ "(" ++ categorizeHospital h.level ++ ")"
    original_name := some h.name
    address := h.address.getD "地址不詳"
    city := h.city
    type := "hospital"
    phone := h.phone.getD ""
    service_hours := none
    phone_hours := none
    level := some h.level
    category := some (categorizeHospital h.level)
    latitude := la
    longitude := lo
    distance := pyRound2 (calculate_distance req.latitude req.longitude la lo) }

/-- All hospital infos in input order, skipping records with a missing
coordinate (`if hospital_lat is None or hospital_lng is None: continue`). -/
noncomputable def hospitalInfos (req : NearbyLocationRequest)
    (hospitals : List Hospital) : List LocationInfo :=
  hospitals.filterMap (fun h =>
    match h.lat, h.lng with
    | some la, some lo => some (hospitalInfo req h la lo)
    | _, _ => none)

/-- `hospitals.sort(key=lambda x: x["distance"])` — stable ascending sort. -/
noncomputable def sortByDistance (l : List LocationInfo) : List LocationInfo :=
  l.mergeSort (fun a b => decide (a.distance ≤ b.distance))

/-- The hospital branch before global sorting: partition into the four
tier buckets, sort each bucket by ascending distance, keep its top 3,
and concatenate in bucket order. -/
noncomputable def hospitalNearby (req : NearbyLocationRequest)
    (hospitals : List Hospital) : List LocationInfo :=
  hospitalCategoryNames.flatMap (fun cat =>
    (sortByDistance ((hospitalInfos req hospitals).filter
      (fun i => decide (i.category = some cat)))).take 3)

/-- The office dict built for one labor office. -/
noncomputable def officeInfo (req : NearbyLocationRequest) (o : LaborOffice)
    (la lo : ℝ) : LocationInfo :=
  { name := o.city
    original_name := none
    address := o.address
    city := o.city
    type := "labor_office"
    phone := o.phone
    service_hours := some o.serviceHours
    phone_hours := some o.phoneHours
    level := none
    category := none
    latitude := la
    longitude := lo
    distance := officeDistance req.latitude req.longitude la lo }

/-- The labor-office loop: `float(office["緯度"])` on a record without
numeric coordinates raises (modelled by `Except.error`), aborting the
whole feature. -/
noncomputable def officeNearby (req : NearbyLocationRequest) :
    List LaborOffice → Except Unit (List LocationInfo)
  | [] => .ok []
  | o :: os =>
      match o.lat, o.lng with
      | some la, some lo =>
          match officeNearby req os with
          | .ok rest => .ok (officeInfo req o la lo :: rest)
          | .error e => .error e
      | _, _ => .error ()

/-- The hospital-branch result message with the per-tier counts. -/
def hospitalMessage (results : List LocationInfo) : String :=
  "找到最近的醫院：醫學中心" ++
    toString (results.filter (fun l => decide (l.category = some "醫學中心"))).length ++
    "家、區域醫院" ++
    toString (results.filter (fun l => decide (l.category = some "區域醫院"))).length ++
    "家、地區醫院" ++
    toString (results.filter (fun l => decide (l.category = some "地區醫院"))).length ++
    "家、診所" ++
    toString (results.filter (fun l => decide (l.category = some "診所"))).length ++ "家"

/-- The `/api/maps/nearby` handler `get_nearby_locations`.  The request's
`radius` field is validated but never read by the body.  Branch on the
(validated) `type`; sort everything by distance; truncate to 12 for
hospitals (4 tiers × 3) and 20 for offices; report the un-truncated
count as `total`. -/
noncomputable def get_nearby_locations (mapData? : Option MapData)
    (req : NearbyLocationRequest) : NearbyResult :=
  match mapData? with
  | none => .err "地圖數據暫時無法使用"
  | some data =>
      let nearbyE : Except Unit (List LocationInfo) :=
        if req.type = "hospital" then .ok (hospitalNearby req data.hospitals)
        else if req.type = "labor_office" then officeNearby req data.labor_offices
        else .ok []
      match nearbyE with
      | .error _ => .err "獲取附近位置失敗"
      | .ok nearby =>
          if req.type = "hospital" then
            .ok ((sortByDistance nearby).take 12) nearby.length
              (hospitalMessage ((sortByDistance nearby).take 12))
          else
            .ok ((sortByDistance nearby).take 20) nearby.length
              ("找到 " ++ toString ((sortByDistance nearby).take 20).length ++ " 個勞保局辦事處")

/-- The concatenation of the four per-tier top-3 lists never exceeds 12
entries, so the later `[:12]` truncation is the identity. -/
lemma hospitalNearby_length_le (req : NearbyLocationRequest) (hs : List Hospital) :
    (hospitalNearby req hs).length ≤ 12 := by
  rw [hospitalNearby, hospitalCategoryNames]
  simp only [List.flatMap_cons, List.flatMap_nil, List.append_nil, List.length_append]
  have h1 := List.length_take_le 3 (sortByDistance ((hospitalInfos req hs).filter
    (fun i => decide (i.category = some "醫學中心"))))
  have h2 := List.length_take_le 3 (sortByDistance ((hospitalInfos req hs).filter
    (fun i => decide (i.category = some "區域醫院"))))
  have h3 := List.length_take_le 3 (sortByDistance ((hospitalInfos req hs).filter
    (fun i => decide (i.category = some "地區醫院"))))
  have h4 := List.length_take_le 3 (sortByDistance ((hospitalInfos req hs).filter
    (fun i => decide (i.category = some "診所"))))
  omega

/-- Anything in a tier bucket whose size is at most 3 survives the
per-tier truncation and appears in the concatenated hospital list. -/
lemma mem_hospitalNearby (req : NearbyLocationRequest) (hs : List Hospital)
    (cat : String) (hcatmem : cat ∈ hospitalCategoryNames) (i : LocationInfo)
    (hi : i ∈ (hospitalInfos req hs).filter (fun x => decide (x.category = some cat)))
    (hlen : ((hospitalInfos req hs).filter (fun x => decide (x.category = some cat))).length ≤ 3) :
    i ∈ hospitalNearby req hs := by
  rw [hospitalNearby]
  apply List.mem_flatMap.mpr
  refine ⟨cat, hcatmem, ?_⟩
  have hsortlen : (sortByDistance ((hospitalInfos req hs).filter
      (fun x => decide (x.category = some cat)))).length ≤ 3 := by
    rw [sortByDistance, (List.mergeSort_perm _ _).length_eq]
    exact hlen
  rw [List.take_of_length_le hsortlen, sortByDistance]
  exact ((List.mergeSort_perm _ _).mem_iff).mpr hi

/-- Every entry of the concatenated hospital list is the info record of
some hospital of the input that has both coordinates. -/
lemma mem_hospitalNearby_src (req : NearbyLocationRequest) (hs : List Hospital)
    (l : LocationInfo) (hl : l ∈ hospitalNearby req hs) :
    ∃ h ∈ hs, ∃ la lo, h.lat = some la ∧ h.lng = some lo ∧ l = hospitalInfo req h la lo := by
  rw [hospitalNearby] at hl
  rcases List.mem_flatMap.mp hl with ⟨cat, _, hmem⟩
  have hmem1 := List.mem_of_mem_take hmem
  rw [sortByDistance] at hmem1
  have hmem2 := ((List.mergeSort_perm _ _).mem_iff).mp hmem1
  have hmem3 := (List.mem_filter.mp hmem2).1
  rcases List.mem_filterMap.mp hmem3 with ⟨h, hh, hfh⟩
  cases hla : h.lat with
  | none => rw [hla] at hfh; exact Option.noConfusion hfh
  | some la =>
      cases hlng : h.lng with
      | none => rw [hla, hlng] at hfh; exact Option.noConfusion hfh
      | some lo =>
          rw [hla, hlng] at hfh
          exact ⟨h, hh, la, lo, hla, hlng, (Option.some.injEq _ _ ▸ hfh).symm⟩

/-- Shape of the hospital-branch response: the final sort is a
permutation of the concatenated per-tier list and `[:12]` keeps all of
it. -/
lemma get_nearby_hospital_eq (data : MapData) (req : NearbyLocationRequest)
    (hty : req.type = "hospital") :
    get_nearby_locations (some data) req =
      .ok (sortByDistance (hospitalNearby req data.hospitals))
        (hospitalNearby req data.hospitals).length
        (hospitalMessage (sortByDistance (hospitalNearby req data.hospitals))) := by
  have htake : (sortByDistance (hospitalNearby req data.hospitals)).take 12 =
      sortByDistance (hospitalNearby req data.hospitals) := by
    apply List.take_of_length_le
    rw [sortByDistance, (List.mergeSort_perm _ _).length_eq]
    exact hospitalNearby_length_le req data.hospitals
  rw [get_nearby_locations]
  simp only [hty, if_true, htake]

/-- The office loop succeeds when every office has both coordinates, and
each produced entry is the office-info record of an input office. -/
lemma officeNearby_all_coords (req : NearbyLocationRequest) :
    ∀ os : List LaborOffice,
      (∀ o ∈ os, o.lat ≠ none ∧ o.lng ≠ none) →
      ∃ locs, officeNearby req os = .ok locs ∧
        ∀ l ∈ locs, ∃ o ∈ os, ∃ la lo, o.lat = some la ∧ o.lng = some lo ∧
          l = officeInfo req o la lo
  | [], _ => ⟨[], rfl, by simp⟩
  | o :: os, hco => by
      obtain ⟨locs, hlocs, hsrc⟩ :=
        officeNearby_all_coords req os (fun x hx => hco x (List.mem_cons_of_mem o hx))
      have hl := (hco o (List.mem_cons_self o os)).1
      have hg := (hco o (List.mem_cons_self o os)).2
      cases hla : o.lat with
      | none => exact absurd hla hl
      | some la =>
          cases hlng : o.lng with
          | none => exact absurd hlng hg
          | some lo =>
              refine ⟨officeInfo req o la lo :: locs, ?_, ?_⟩
              · rw [officeNearby, hla, hlng, hlocs]
              · intro l hlmem
                rcases List.mem_cons.mp hlmem with h | h
                · exact ⟨o, List.mem_cons_self o os, la, lo, hla, hlng, h⟩
                · rcases hsrc l h with ⟨o', ho', la', lo', h1, h2, h3⟩
                  exact ⟨o', List.mem_cons_of_mem o ho', la', lo', h1, h2, h3⟩

/-- C8 amended: distance semantics of the nearest-facility search.  In
the hospital branch the lookup always succeeds, records missing a
coordinate are skipped, and every returned record's distance is the
haversine great-circle distance (Earth radius 6371 km) rounded to two
decimals.  In the labor-office branch — provided every office record has
coordinates, since a missing one aborts the lookup — every returned
record's distance is instead the flat approximation
`sqrt(Δlat² + Δlng²) * 111`. -/
theorem nearby_distance_semantics (data : MapData) (req : NearbyLocationRequest) :
    (req.type = "hospital" →
      ∃ locs msg, get_nearby_locations (some data) req =
          .ok locs (hospitalNearby req data.hospitals).length msg ∧
        ∀ l ∈ locs, ∃ h ∈ data.hospitals, ∃ la lo, h.lat = some la ∧ h.lng = some lo ∧
          l.distance = pyRound2 (calculate_distance req.latitude req.longitude la lo)) ∧
    (req.type = "labor_office" →
      (∀ o ∈ data.labor_offices, o.lat ≠ none ∧ o.lng ≠ none) →
      ∃ locs total msg, get_nearby_locations (some data) req = .ok locs total msg ∧
        ∀ l ∈ locs, ∃ o ∈ data.labor_offices, ∃ la lo, o.lat = some la ∧ o.lng = some lo ∧
          l.distance = officeDistance req.latitude req.longitude la lo) := by
  constructor
  · intro hty
    refine ⟨sortByDistance (hospitalNearby req data.hospitals), _,
      get_nearby_hospital_eq data req hty, ?_⟩
    intro l hl
    rw [sortByDistance] at hl
    have hl' := ((List.mergeSort_perm _ _).mem_iff).mp hl
    rcases mem_hospitalNearby_src req data.hospitals l hl' with ⟨h, hh, la, lo, h1, h2, h3⟩
    exact ⟨h, hh, la, lo, h1, h2, by rw [h3]; rfl⟩
  · intro hty hco
    obtain ⟨locs, hlocs, hsrc⟩ := officeNearby_all_coords req data.labor_offices hco
    have hne : req.type ≠ "hospital" := by rw [hty]; decide
    refine ⟨(sortByDistance locs).take 20, locs.length,
      "找到 " ++ toString ((sortByDistance locs).take 20).length ++ " 個勞保局辦事處", ?_, ?_⟩
    · have hsneq : ("labor_office" : String) ≠ "hospital" := by decide
      rw [get_nearby_locations]
      simp only [hne, if_neg, reduceIte, hty, if_pos, hlocs, hsneq]
    · intro l hl
      have hl1 := List.mem_of_mem_take hl
      rw [sortByDistance] at hl1
      have hl2 := ((List.mergeSort_perm _ _).mem_iff).mp hl1
      rcases hsrc l hl2 with ⟨o, ho, la, lo, h1, h2, h3⟩
      exact ⟨o, ho, la, lo, h1, h2, by rw [h3]; rfl⟩

/-- C9: the hospital branch partitions records into the four tier
buckets before any truncation (the returned list is a permutation of the
concatenation of the per-tier sorted top-3 lists), so two hospitals in
different tiers — even at exactly the same computed distance — both
appear in the result whenever each fits its own tier's quota.  Proximity
in one tier never displaces another tier's quota. -/
theorem nearby_tier_partition (data : MapData) (req : NearbyLocationRequest)
    (a b : Hospital) (ala alo bla blo : ℝ)
    (hty : req.type = "hospital")
    (ha : a ∈ data.hospitals) (hb : b ∈ data.hospitals)
    (hala : a.lat = some ala) (halo : a.lng = some alo)
    (hbla : b.lat = some bla) (hblo : b.lng = some blo)
    (hdiff : categorizeHospital a.level ≠ categorizeHospital b.level)
    (heq : pyRound2 (calculate_distance req.latitude req.longitude ala alo) =
      pyRound2 (calculate_distance req.latitude req.longitude bla blo))
    (hna : ((hospitalInfos req data.hospitals).filter
      (fun x => decide (x.category = some (categorizeHospital a.level)))).length ≤ 3)
    (hnb : ((hospitalInfos req data.hospitals).filter
      (fun x => decide (x.category = some (categorizeHospital b.level)))).length ≤ 3) :
    ∃ locs msg, get_nearby_locations (some data) req =
        .ok locs (hospitalNearby req data.hospitals).length msg ∧
      locs.Perm (hospitalNearby req data.hospitals) ∧
      hospitalInfo req a ala alo ∈ locs ∧ hospitalInfo req b bla blo ∈ locs := by
  have hmemof : ∀ (h : Hospital) (la lo : ℝ), h ∈ data.hospitals →
      h.lat = some la → h.lng = some lo →
      ((hospitalInfos req data.hospitals).filter
        (fun x => decide (x.category = some (categorizeHospital h.level)))).length ≤ 3 →
      hospitalInfo req h la lo ∈ hospitalNearby req data.hospitals := by
    intro h la lo hmem hla hlo hcount
    apply mem_hospitalNearby req data.hospitals (categorizeHospital h.level) _ _ _ hcount
    · rw [categorizeHospital, hospitalCategoryNames]
      by_cases h1 : strContains h.level "醫學中心" = true
      · simp [h1]
      · by_cases h2 : strContains h.level "區域醫院" = true
        · simp [h1, h2]
        · by_cases h3 : strContains h.level "地區醫院" = true
          · simp [h1, h2, h3]
          · simp [h1, h2, h3]
    · apply List.mem_filter.mpr
      constructor
      · rw [hospitalInfos]
        apply List.mem_filterMap.mpr
        exact ⟨h, hmem, by rw [hla, hlo]⟩
      · simp [hospitalInfo]
  have hmema := hmemof a ala alo ha hala halo hna
  have hmemb := hmemof b bla blo hb hbla hblo hnb
  refine ⟨sortByDistance (hospitalNearby req data.hospitals), _,
    get_nearby_hospital_eq data req hty, ?_, ?_, ?_⟩
  · rw [sortByDistance]
    exact List.mergeSort_perm _ _
  · rw [sortByDistance]
    exact ((List.mergeSort_perm _ _).mem_iff).mpr hmema
  · rw [sortByDistance]
    exact ((List.mergeSort_perm _ _).mem_iff).mpr hmemb

/-- The hospital info record does not depend on the request's radius. -/
lemma hospitalInfo_radius (lat lng : ℝ) (ty : String) (r1 r2 : ℝ) (h : Hospital)
    (la lo : ℝ) :
    hospitalInfo ⟨lat, lng, ty, r1⟩ h la lo = hospitalInfo ⟨lat, lng, ty, r2⟩ h la lo := rfl

/-- The office info record does not depend on the request's radius. -/
lemma officeInfo_radius (lat lng : ℝ) (ty : String) (r1 r2 : ℝ) (o : LaborOffice)
    (la lo : ℝ) :
    officeInfo ⟨lat, lng, ty, r1⟩ o la lo = officeInfo ⟨lat, lng, ty, r2⟩ o la lo := rfl

/-- The hospital info list does not depend on the request's radius. -/
lemma hospitalInfos_radius (lat lng : ℝ) (ty : String) (r1 r2 : ℝ) (hs : List Hospital) :
    hospitalInfos ⟨lat, lng, ty, r1⟩ hs = hospitalInfos ⟨lat, lng, ty, r2⟩ hs := by
  rw [hospitalInfos, hospitalInfos]
  apply List.filterMap_congr
  intro a _
  rfl

/-- The concatenated hospital list does not depend on the request's radius. -/
lemma hospitalNearby_radius (lat lng : ℝ) (ty : String) (r1 r2 : ℝ) (hs : List Hospital) :
    hospitalNearby ⟨lat, lng, ty, r1⟩ hs = hospitalNearby ⟨lat, lng, ty, r2⟩ hs := by
  rw [hospitalNearby, hospitalNearby, hospitalInfos_radius lat lng ty r1 r2 hs]

/-- The office loop does not depend on the request's radius. -/
lemma officeNearby_radius (lat lng : ℝ) (ty : String) (r1 r2 : ℝ) :
    ∀ os : List LaborOffice,
      officeNearby ⟨lat, lng, ty, r1⟩ os = officeNearby ⟨lat, lng, ty, r2⟩ os
  | [] => rfl
  | o :: os => by
      have ih := officeNearby_radius lat lng ty r1 r2 os
      simp only [officeNearby, ih, officeInfo_radius lat lng ty r1 r2]

/-- C10: the validated `radius` parameter (range 1..200) is never read by
`get_nearby_locations`, so two requests identical except for their radius
produce identical responses — locations, total and message. -/
theorem nearby_radius_independent (mapData? : Option MapData) (lat lng : ℝ) (ty : String)
    (r1 r2 : ℝ) (h1 : 1 ≤ r1 ∧ r1 ≤ 200) (h2 : 1 ≤ r2 ∧ r2 ≤ 200) :
    get_nearby_locations mapData? ⟨lat, lng, ty, r1⟩ =
      get_nearby_locations mapData? ⟨lat, lng, ty, r2⟩ := by
  cases mapData? with
  | none => rfl
  | some data =>
      rw [get_nearby_locations, get_nearby_locations]
      simp only [hospitalNearby_radius lat lng ty r1 r2, officeNearby_radius lat lng ty r1 r2]

/-- Witness for C10 at the extreme admissible radii. -/
theorem nearby_radius_independent_witness :
    ((1:ℝ) ≤ 1 ∧ (1:ℝ) ≤ 200) ∧ ((1:ℝ) ≤ 200 ∧ (200:ℝ) ≤ 200) ∧
    get_nearby_locations none ⟨25, 121, "hospital", 1⟩ =
      get_nearby_locations none ⟨25, 121, "hospital", 200⟩ :=
  ⟨⟨le_refl 1, by norm_num⟩, ⟨by norm_num, le_refl 200⟩,
    nearby_radius_independent none 25 121 "hospital" 1 200 ⟨le_refl 1, by norm_num⟩
      ⟨by norm_num, le_refl 200⟩⟩

/-- Two hospitals at identical coordinates but in different tiers. -/
def hospA : Hospital := ⟨"甲醫院", "臺北市", "醫學中心", none, none, some 25, some 121⟩

/-- Second hospital of the tie-break scenario. -/
def hospB : Hospital := ⟨"乙醫院", "臺北市", "區域醫院", none, none, some 25, some 121⟩

/-- Map data for the tie-break scenario. -/
def mapAB : MapData := ⟨[], [hospA, hospB]⟩

/-- Hospital request at the shared coordinates. -/
def reqAB : NearbyLocationRequest := ⟨25, 121, "hospital", 50⟩

/-- Witness for C9: two equidistant hospitals in different tiers both
appear in the result. -/
theorem nearby_tier_partition_witness :
    ∃ locs msg, get_nearby_locations (some mapAB) reqAB =
        .ok locs (hospitalNearby reqAB mapAB.hospitals).length msg ∧
      locs.Perm (hospitalNearby reqAB mapAB.hospitals) ∧
      hospitalInfo reqAB hospA 25 121 ∈ locs ∧ hospitalInfo reqAB hospB 25 121 ∈ locs := by
  have hlen : ∀ cat : String, ((hospitalInfos reqAB mapAB.hospitals).filter
      (fun x => decide (x.category = some cat))).length ≤ 3 := by
    intro cat
    calc ((hospitalInfos reqAB mapAB.hospitals).filter
        (fun x => decide (x.category = some cat))).length
        ≤ (hospitalInfos reqAB mapAB.hospitals).length := List.length_filter_le _ _
      _ ≤ mapAB.hospitals.length := List.length_filterMap_le _ _
      _ ≤ 3 := by simp [mapAB]
  exact nearby_tier_partition mapAB reqAB hospA hospB 25 121 25 121 rfl
    (by simp [mapAB]) (by simp [mapAB]) rfl rfl rfl rfl (by decide) rfl
    (hlen _) (hlen _)

/-- Hospital used by the C8 witness. -/
def hospC : Hospital := ⟨"丙醫院", "高雄市", "區域醫院", some "07", some "地址一", some 22, some 120⟩

/-- Labor office used by the C8 witness. -/
def offC : LaborOffice := ⟨"高雄市", "地址二", "07", "時間一", "時間二", some 22, some 120⟩

/-- Map data for the C8 witness. -/
def mapC : MapData := ⟨[offC], [hospC]⟩

/-- Witness for C8 amended, applied to both branches. -/
theorem nearby_distance_semantics_witness :
    (∃ locs msg, get_nearby_locations (some mapC) ⟨23, 121, "hospital", 50⟩ =
        .ok locs (hospitalNearby ⟨23, 121, "hospital", 50⟩ mapC.hospitals).length msg ∧
      ∀ l ∈ locs, ∃ h ∈ mapC.hospitals, ∃ la lo, h.lat = some la ∧ h.lng = some lo ∧
        l.distance = pyRound2 (calculate_distance 23 121 la lo)) ∧
    (∃ locs total msg, get_nearby_locations (some mapC) ⟨23, 121, "labor_office", 50⟩ =
        .ok locs total msg ∧
      ∀ l ∈ locs, ∃ o ∈ mapC.labor_offices, ∃ la lo, o.lat = some la ∧ o.lng = some lo ∧
        l.distance = officeDistance 23 121 la lo) := by
  constructor
  · exact (nearby_distance_semantics mapC ⟨23, 121, "hospital", 50⟩).1 rfl
  · apply (nearby_distance_semantics mapC ⟨23, 121, "labor_office", 50⟩).2 rfl
    intro o ho
    have : o = offC := by simpa [mapC] using ho
    subst this
    exact ⟨by simp [offC], by simp [offC]⟩

/-- Labor office with no coordinates (the JSON row lacks numeric
`緯度`/`經度`). -/
def offNoCoords : LaborOffice := ⟨"臺北市", "地址三", "02", "時間三", "時間四", none, none⟩

/-- Map data containing only the coordinate-less office. -/
def mapNoCoords : MapData := ⟨[offNoCoords], []⟩

/-- Labor office on the equator at longitude 90°. -/
def offFar : LaborOffice := ⟨"遠方", "地址四", "00", "時間五", "時間六", some 0, some 90⟩

/-- Map data containing only the distant office. -/
def mapFar : MapData := ⟨[offFar], []⟩

/-- Office request from the origin (0, 0). -/
def reqO : NearbyLocationRequest := ⟨0, 0, "labor_office", 50⟩

/-- Haversine distance from (0,0) to (0,90): a quarter of a great
circle, `6371 * π / 2` km. -/
lemma calculate_distance_quarter :
    calculate_distance 0 0 0 90 = 6371 * (Real.pi / 2) := by
  have h00 : radians ((0:ℝ) - 0) = 0 := by
    rw [radians]
    norm_num
  have h0 : radians (0:ℝ) = 0 := by
    rw [radians]
    norm_num
  have h90 : radians ((90:ℝ) - 0) = Real.pi / 2 := by
    rw [radians]
    ring_nf
  have hsin : Real.sin (Real.pi / 2 / 2) = Real.sqrt 2 / 2 := by
    rw [show Real.pi / 2 / 2 = Real.pi / 4 by ring]
    exact Real.sin_pi_div_four
  have ha : Real.sin (radians ((0:ℝ) - 0) / 2) * Real.sin (radians ((0:ℝ) - 0) / 2) +
      Real.cos (radians (0:ℝ)) * Real.cos (radians (0:ℝ)) *
        Real.sin (radians ((90:ℝ) - 0) / 2) * Real.sin (radians ((90:ℝ) - 0) / 2) =
      1 / 2 := by
    rw [h00, h90, h0, hsin]
    rw [show (0:ℝ) / 2 = 0 by norm_num, Real.sin_zero, Real.cos_zero]
    have h2 : Real.sqrt 2 * Real.sqrt 2 = 2 := Real.mul_self_sqrt (by norm_num)
    nlinarith [h2]
  have hpos : 0 < Real.sqrt (1 / 2) := Real.sqrt_pos.mpr (by norm_num)
  have hatan : atan2 (Real.sqrt (1 / 2)) (Real.sqrt (1 - 1 / 2)) = Real.pi / 4 := by
    rw [show (1:ℝ) - 1 / 2 = 1 / 2 by norm_num, atan2, if_pos hpos,
      div_self (ne_of_gt hpos), Real.arctan_one]
  rw [calculate_distance]
  rw [ha, hatan]
  ring

/-- C8 counterexample, both divergences of the labor-office branch:
(a) an office record with missing coordinates makes the whole lookup
return the error response instead of being skipped; (b) a returned
office record's distance is the flat `sqrt(Δlat²+Δlng²)*111` value
(9990 km from (0,0) to (0,90)), which differs from the haversine
great-circle distance `6371·π/2 ≈ 10007.5` km. -/
theorem nearby_haversine_counterexample :
    get_nearby_locations (some mapNoCoords) reqO = .err "獲取附近位置失敗" ∧
    (∃ total msg, get_nearby_locations (some mapFar) reqO =
      .ok [officeInfo reqO offFar 0 90] total msg) ∧
    (officeInfo reqO offFar 0 90).distance = 9990 ∧
    calculate_distance 0 0 0 90 = 6371 * (Real.pi / 2) ∧
    (officeInfo reqO offFar 0 90).distance ≠ calculate_distance 0 0 0 90 := by
  have hdist : (officeInfo reqO offFar 0 90).distance = 9990 := by
    show officeDistance reqO.latitude reqO.longitude 0 90 = 9990
    show officeDistance 0 0 0 90 = 9990
    rw [officeDistance]
    rw [show ((0:ℝ) - 0) ^ 2 + ((0:ℝ) - 90) ^ 2 = 90 ^ 2 by norm_num]
    rw [Real.sqrt_sq (by norm_num : (0:ℝ) ≤ 90)]
    norm_num
  have hty : reqO.type = "labor_office" := rfl
  have hne : ¬ (reqO.type = "hospital") := by
    rw [hty]
    decide
  refine ⟨?_, ?_, hdist, calculate_distance_quarter, ?_⟩
  · have hoff : officeNearby reqO mapNoCoords.labor_offices = .error () := rfl
    rw [get_nearby_locations, if_neg hne, if_pos hty, hoff]
  · have hoff : officeNearby reqO mapFar.labor_offices =
        .ok [officeInfo reqO offFar 0 90] := rfl
    have htake : ([officeInfo reqO offFar 0 90] : List LocationInfo).take 20 =
        [officeInfo reqO offFar 0 90] :=
      List.take_of_length_le (by simp)
    refine ⟨([officeInfo reqO offFar 0 90] : List LocationInfo).length,
      "找到 " ++ toString (([officeInfo reqO offFar 0 90] : List LocationInfo).length) ++
        " 個勞保局辦事處", ?_⟩
    rw [get_nearby_locations, if_neg hne, if_pos hty, hoff]
    show (if reqO.type = "hospital" then _ else _) = _
    rw [if_neg hne, sortByDistance, List.mergeSort_singleton, htake]
  · rw [hdist, calculate_distance_quarter]
    have hpi : (3.141592 : ℝ) < Real.pi := Real.pi_gt_d6
    intro hcontra
    nlinarith [hpi]
